import Mathlib

/-!
Verification of the check-mk-cli specification against a shallow embedding of
the program (cmkcli.py).  The embedding translates the pure, observable parts
of the code: the WATO sites HTML scraper (class WatoSitesHtmlParser), the
problem and acknowledgement table builders, comment lookup, the interactive
selection and comment prompts, and the downtime success and failure messages.
External collaborators (HTTP transport, the HTML tokenizer of the standard
library, the colored and textwrap libraries, the tabulate renderer) are out of
scope of the spec; they are modelled by explicit inputs or by small faithful
models noted below.  Python exceptions (IndexError, ValueError) are modelled
by Option, with none standing for a raised exception.
-/

/-! ## Small Python-semantics helpers -/

/-- Boolean prefix test on character lists (used to model Python string
matching; written out so its equations are directly available to proofs). -/
def chPre : List Char → List Char → Bool
  | [], _ => true
  | _ :: _, [] => false
  | a :: as, b :: bs => a == b && chPre as bs

/-- Boolean contiguous-substring test on character lists. -/
def chSub (needle : List Char) : List Char → Bool
  | [] => chPre needle []
  | b :: bs => chPre needle (b :: bs) || chSub needle bs

/-- Model of the Python expression needle in hay on strings
(contiguous substring containment). -/
def pyIn (needle hay : String) : Bool :=
  chSub needle.data hay.data

/-- Model of the Python method str.strip: remove leading and trailing
whitespace characters. -/
def pyStrip (s : String) : String :=
  String.mk
    (((s.data.dropWhile Char.isWhitespace).reverse.dropWhile
        Char.isWhitespace).reverse)

/-- Model of the Python method str.lower on the characters of a string. -/
def pyLower (s : String) : String :=
  String.mk (s.data.map Char.toLower)

/-- The slice a[:1] of a Python string: its first character, or the empty
string. -/
def pyTake1 (s : String) : String :=
  String.mk (s.data.take 1)

/-- Accumulator loop for a decimal digit sequence. -/
def digitsValGo : List Char → Nat → Option Nat
  | [], acc => some acc
  | c :: rest, acc =>
    if c.isDigit then digitsValGo rest (10 * acc + (c.toNat - 48)) else none

/-- Value of a non-empty all-digit character sequence. -/
def digitsVal : List Char → Option Nat
  | [] => none
  | l => digitsValGo l 0

/-- Model of the Python builtin int() applied to an input line: surrounding
whitespace is accepted, an optional sign precedes a non-empty digit
sequence; anything else raises ValueError (none). -/
def pyInt (s : String) : Option Int :=
  match (pyStrip s).data with
  | '-' :: rest => (digitsVal rest).map (fun n => -(n : Int))
  | '+' :: rest => (digitsVal rest).map (fun n => (n : Int))
  | rest => (digitsVal rest).map (fun n => (n : Int))

/-- Python string truthiness: a string is truthy iff it is non-empty. -/
def pyTruthy (s : String) : Bool := !(s == "")

/-- Python truthiness of an optional string argument: None is falsy and an
empty string is falsy. -/
def pyTruthyOpt : Option String → Bool
  | none => false
  | some s => !(s == "")

/-- Model of list.pop() (remove and discard the last element): raises
IndexError (none) on an empty list. -/
def pyPopLast {α : Type} (l : List α) : Option (List α) :=
  if l.isEmpty then none else some l.dropLast

/-- Model of list.pop(0) (remove and discard the first element): raises
IndexError (none) on an empty list. -/
def pyPopFront {α : Type} (l : List α) : Option (List α) :=
  if l.isEmpty then none else some l.tail

/-- Splitting a character sequence into whitespace-separated words (the word
scan underlying the external textwrap.fill). -/
def splitWords : List Char → List Char → List String
  | [], cur => if cur = [] then [] else [String.mk cur.reverse]
  | ch :: rest, cur =>
    if ch.isWhitespace then
      (if cur = [] then splitWords rest []
       else String.mk cur.reverse :: splitWords rest [])
    else splitWords rest (ch :: cur)

/-- Greedy word-wrap loop of the external textwrap.fill: words are packed
into lines of at most the given width. -/
def fillLoop (width : Nat) : List String → String → List String
  | [], cur => if cur = "" then [] else [cur]
  | w :: ws, cur =>
    if cur = "" then fillLoop width ws w
    else if cur.length + 1 + w.length ≤ width then fillLoop width ws (cur ++ " " ++ w)
    else cur :: fillLoop width ws w

/-- Joining wrapped lines with newlines. -/
def joinLines : List String → String
  | [] => ""
  | [l] => l
  | l :: ls => l ++ "\n" ++ joinLines ls

/-- Model of the external textwrap.fill(text, width): split into words, pack
greedily, join with newlines.  All inputs the claims touch are single short
words, where fill is the identity. -/
def textwrap_fill (s : String) (width : Nat) : String :=
  joinLines (fillLoop width (splitWords s.data []) "")

/-! ## Models of the external colored library and the colour helpers -/

/-- Symbolic model of colored.fg(name): an opaque marker string. -/
def colored_fg (name : String) : String := "[fg=" ++ name ++ "]"

/-- Symbolic model of colored.attr(name): an opaque marker string. -/
def colored_attr (name : String) : String := "[attr=" ++ name ++ "]"

/-- CheckMk.str_red: wrap in red markers when colour output is enabled. -/
def str_red (colour : Bool) (s : String) : String :=
  if colour then colored_fg "red" ++ s ++ colored_attr "reset" else s

/-- CheckMk.str_yellow. -/
def str_yellow (colour : Bool) (s : String) : String :=
  if colour then colored_fg "yellow" ++ s ++ colored_attr "reset" else s

/-- CheckMk.str_blue. -/
def str_blue (colour : Bool) (s : String) : String :=
  if colour then colored_fg "blue" ++ s ++ colored_attr "reset" else s

/-- CheckMk.str_green. -/
def str_green (colour : Bool) (s : String) : String :=
  if colour then colored_fg "green" ++ s ++ colored_attr "reset" else s

/-- CheckMk.str_orange. -/
def str_orange (colour : Bool) (s : String) : String :=
  if colour then colored_fg "dark_orange" ++ s ++ colored_attr "reset" else s

/-- CheckMk.str_bold. -/
def str_bold (colour : Bool) (s : String) : String :=
  if colour then colored_attr "bold" ++ s ++ colored_attr "reset" else s

/-! ## Severity prefix stripping -/

/-- Embedding of the expression re.sub with pattern anchored at the start,
alternatives CRIT, WARN and UNKNOWN each followed by space dash space
(cmkcli.py lines 362, 420, 447, 495): the anchored pattern can match at most
once, so at most one leading label is removed. -/
def strip_severity (d : String) : String :=
  if chPre "CRIT - ".data d.data then String.mk (d.data.drop 7)
  else if chPre "WARN - ".data d.data then String.mk (d.data.drop 7)
  else if chPre "UNKNOWN - ".data d.data then String.mk (d.data.drop 10)
  else d

/-- Decides whether a detail string starts with one of the three severity
labels recognised by the regular expression. -/
def hasSeverity (d : String) : Bool :=
  chPre "CRIT - ".data d.data || chPre "WARN - ".data d.data ||
    chPre "UNKNOWN - ".data d.data

/-! ## The WATO sites scraper (class WatoSitesHtmlParser) -/

/-- Parser events delivered by the HTML tokenizer of the standard library
(external): open tags, close tags and text nodes. -/
inductive Event : Type
  | startTag (tag : String)
  | endTag (tag : String)
  | text (s : String)
deriving DecidableEq

/-- State of WatoSitesHtmlParser: collected rows, the Python row index
(initially -1), the 1-based column counter and the flag set once the first
table has closed. -/
structure WatoState : Type where
  output : List (List String)
  row_index : Int
  column_index : Nat
  header_found : Bool
deriving DecidableEq

/-- Initial scraper state (the constructor of WatoSitesHtmlParser). -/
def watoInit : WatoState := ⟨[], -1, 0, false⟩

/-- Embedding of WatoSitesHtmlParser.handle_starttag. -/
def handle_starttag (st : WatoState) (tag : String) : WatoState :=
  if !st.header_found then st
  else if tag = "tr" then
    { st with row_index := st.row_index + 1, column_index := 0,
              output := st.output ++ [[]] }
  else if tag = "td" then { st with column_index := st.column_index + 1 }
  else st

/-- Embedding of WatoSitesHtmlParser.handle_endtag. -/
def handle_endtag (st : WatoState) (tag : String) : WatoState :=
  if tag = "table" then
    (if !st.header_found then { st with header_found := true } else st)
  else st

/-- Appending to the list at a Python index (negative indices count from the
end); out of range raises IndexError, modelled by none.  This is the
semantics of the statement output[row_index].append(data). -/
def pyListAppendAt (l : List (List String)) (idx : Int) (s : String) :
    Option (List (List String)) :=
  let i : Int := if idx < 0 then idx + l.length else idx
  if 0 ≤ i ∧ i < l.length then
    some (l.set i.toNat ((l.getD i.toNat []) ++ [s]))
  else none

/-- Embedding of WatoSitesHtmlParser.handle_data. -/
def handle_data (st : WatoState) (data : String) : Option WatoState :=
  if st.column_index = 2 ∨ st.column_index = 3 ∨ st.column_index = 4 then
    (pyListAppendAt st.output st.row_index data).map
      (fun o => { st with output := o })
  else some st

/-- One tokenizer event dispatched to the three handlers. -/
def watoStep (st : WatoState) : Event → Option WatoState
  | Event.startTag t => some (handle_starttag st t)
  | Event.endTag t => some (handle_endtag st t)
  | Event.text s => handle_data st s

/-- Feeding a sequence of events through the scraper (the feed call). -/
def runEvents : WatoState → List Event → Option WatoState
  | st, [] => some st
  | st, e :: evs => (watoStep st e).bind (fun st2 => runEvents st2 evs)

/-- Embedding of WatoSitesHtmlParser.get_sites: output.pop() followed by
output.pop(0); either pop raises IndexError on a too-short list. -/
def wato_get_sites (st : WatoState) : Option (List (List String)) :=
  (pyPopLast st.output).bind pyPopFront

/-- The whole scraper pipeline of CheckMk.get_sites: feed the tokenizer
events to a fresh parser, then call get_sites. -/
def scrapeSites (events : List Event) : Option (List (List String)) :=
  (runEvents watoInit events).bind wato_get_sites

/-! Well-formed inputs for the scraper claims: event sequences describing one
complete header table followed by one data table made of rows of text cells. -/

/-- Events of a single table cell holding one text node. -/
def cellEvents (s : String) : List Event :=
  [Event.startTag "td", Event.text s, Event.endTag "td"]

/-- Events of a single table row given the text of its cells in order. -/
def rowEvents (cells : List String) : List Event :=
  Event.startTag "tr" :: ((cells.map cellEvents).flatten ++ [Event.endTag "tr"])

/-- Events of a complete data table given its rows. -/
def tableEvents (rows : List (List String)) : List Event :=
  Event.startTag "table" :: ((rows.map rowEvents).flatten ++ [Event.endTag "table"])

/-- Events of the leading header table: an opening table tag, an arbitrary
body that closes no table, and the closing table tag. -/
def headerTableEvents (body : List Event) : List Event :=
  Event.startTag "table" :: (body ++ [Event.endTag "table"])

/-- The cells kept by handle_data from a row whose first cell arrives with
the column counter already at c: cell k is kept iff its column number c + k
is 2, 3 or 4. -/
def projFrom (c : Nat) : List String → List String
  | [] => []
  | s :: rest =>
    if c + 1 = 2 ∨ c + 1 = 3 ∨ c + 1 = 4 then s :: projFrom (c + 1) rest
    else projFrom (c + 1) rest

/-! ## Comments -/

/-- A comment record as built by CheckMk.get_comments from the raw comment
view row (author, time, host, service description, wrapped text). -/
structure Comment : Type where
  author : String
  time : String
  host : String
  service : String
  text : String
deriving DecidableEq

/-- Embedding of CheckMk.get_comment: scan the comment list and return the
author and text of the first entry matching the host (host-only query) or the
host and service pair; Python truthiness guards the two branches, so an empty
host or an empty service string disables its branch. -/
def get_comment (comments : List Comment) (host : String)
    (service : Option String) : Option (String × String) :=
  match comments with
  | [] => none
  | i :: rest =>
    if pyTruthy host && !pyTruthyOpt service && (i.host == host) then
      some (i.author, i.text)
    else if pyTruthy host && pyTruthyOpt service && (i.host == host)
        && (i.service == service.getD "") then
      some (i.author, i.text)
    else get_comment rest host service

/-- The comment-attachment step shared by get_acknowledged_hosts and
get_acknowledged_services (cmkcli.py lines 801 to 807 and 834 to 840): a found
comment contributes its author and its text wrapped at width 60, otherwise
two empty strings. -/
def attach_comment (comments : List Comment) (host : String)
    (service : Option String) : String × String :=
  match get_comment comments host service with
  | some c => (c.1, textwrap_fill c.2 60)
  | none => ("", "")

/-- Recursion of CheckMk.get_comments over the data rows: rows authored by
the Nagios process are skipped; other rows are projected to author, time,
host (column 5), service (column 6) and the comment text (column 4) wrapped
at width 100.  A row too short for an accessed column raises IndexError. -/
def get_comments_go : List (List String) → Option (List Comment)
  | [] => some []
  | i :: rest =>
    match i with
    | a :: irest =>
      if a == "(Nagios Process)" then get_comments_go rest
      else
        match irest with
        | t :: _ :: _ :: c :: h :: sv :: _ =>
          match get_comments_go rest with
          | some tail => some (⟨a, t, h, sv, textwrap_fill c 100⟩ :: tail)
          | none => none
        | _ => none
    | [] => none

/-- Embedding of CheckMk.get_comments applied to the raw JSON rows of the
comment view: the header row at element zero is popped (IndexError on an
empty response), then the remaining rows are converted. -/
def get_comments (raw : List (List String)) : Option (List Comment) :=
  match raw with
  | [] => none
  | _ :: rows => get_comments_go rows

/-! ## Problem table builders -/

/-- A display cell: Python keeps the service counters as int unless they are
recoloured, so rows of the host problem table mix strings and ints. -/
inductive Cell : Type
  | str (s : String)
  | int (n : Int)
deriving DecidableEq

/-- State recolouring for host states (DOWN red, UNKN orange, otherwise
unchanged), as inlined in cmkcli.py lines 349 to 354. -/
def host_state_colour (colour : Bool) (st : String) : String :=
  if st = "DOWN" then str_red colour st
  else if st = "UNKN" then str_orange colour st
  else st

/-- State recolouring for service states (CRIT red, WARN yellow, UNKN orange,
otherwise unchanged), as inlined in cmkcli.py lines 428 to 435. -/
def svc_state_colour (colour : Bool) (st : String) : String :=
  if st = "CRIT" then str_red colour st
  else if st = "WARN" then str_yellow colour st
  else if st = "UNKN" then str_orange colour st
  else st

/-- The acknowledgement cell decoded from the icons column: the substring ack
contributes the flag (acknowledged) with a trailing space, the substring
downtime contributes (downtime); the result is recoloured blue. -/
def ack_cell (colour : Bool) (icons : String) : String :=
  str_blue colour
    ((if pyIn "ack" icons then "(acknowledged) " else "") ++
      (if pyIn "downtime" icons then "(downtime)" else ""))

/-- Conversion of one data row inside CheckMk.get_host_problems_table:
row layout [host, address, icons, state, detail, ok, warn, crit, unkn, pend];
detail gets the severity label stripped and is wrapped at 100; non-zero
service counters are recoloured (becoming strings), zero counters stay int. -/
def host_problem_row (colour : Bool) (i : List String) : Option (List Cell) :=
  match i with
  | host :: address :: icons :: st :: d :: s5 :: s6 :: s7 :: s8 :: s9 :: _ =>
    match pyInt s5, pyInt s6, pyInt s7, pyInt s8, pyInt s9 with
    | some srv_ok, some srv_warn, some srv_crit, some srv_unkn, some srv_pend =>
      let state := host_state_colour colour st
      let ack := ack_cell colour icons
      let detail := textwrap_fill (strip_severity d) 100
      let ok : Cell := if 0 < srv_ok then Cell.str (str_green colour (toString srv_ok)) else Cell.int srv_ok
      let wa : Cell := if 0 < srv_warn then Cell.str (str_yellow colour (toString srv_warn)) else Cell.int srv_warn
      let cr : Cell := if 0 < srv_crit then Cell.str (str_red colour (toString srv_crit)) else Cell.int srv_crit
      let un : Cell := if 0 < srv_unkn then Cell.str (str_orange colour (toString srv_unkn)) else Cell.int srv_unkn
      some [Cell.str state, Cell.str host, Cell.str address, Cell.str detail,
            Cell.str ack, ok, wa, cr, un, Cell.int srv_pend]
    | _, _, _, _, _ => none
  | _ => none

/-- Embedding of CheckMk.get_host_problems_table on the raw JSON rows: the
header row at element zero is popped (IndexError on an empty response), then
each data row is converted. -/
def get_host_problems_table (colour : Bool) (raw : List (List String)) :
    Option (List (List Cell)) :=
  match raw with
  | [] => none
  | _ :: data => data.mapM (host_problem_row colour)

/-- Conversion of one data row inside CheckMk.get_service_problems_table:
row layout [state, host, service, icons, detail, state_age]; the service name
is wrapped at 70, the detail has the severity label stripped and is wrapped
at 100; the produced display row is
[state, host, service, detail, state_age, ack]. -/
def service_problem_row (colour : Bool) (i : List String) :
    Option (List String) :=
  match i with
  | s0 :: host :: sv :: icons :: d :: state_age :: _ =>
    let state := svc_state_colour colour s0
    let service := textwrap_fill sv 70
    let ack := ack_cell colour icons
    let detail := textwrap_fill (strip_severity d) 100
    some [state, host, service, detail, state_age, ack]
  | _ => none

/-- Embedding of CheckMk.get_service_problems_table on the raw JSON rows:
the header row at element zero is popped, then each data row is converted. -/
def get_service_problems_table (colour : Bool) (raw : List (List String)) :
    Option (List (List String)) :=
  match raw with
  | [] => none
  | _ :: data => data.mapM (service_problem_row colour)

/-! ## Acknowledged problem listings -/

/-- One output row of CheckMk.get_acknowledged_hosts:
[state, host, address, detail wrapped at 60, author, comment]. -/
def ack_host_row (colour : Bool) (comments : List Comment)
    (host addr st det : String) : List String :=
  let ac := attach_comment comments host none
  [host_state_colour colour st, host, addr, textwrap_fill det 60, ac.1, ac.2]

/-- Embedding of CheckMk.get_acknowledged_hosts on the raw host problem rows
(layout [host, address, icons, state, detail, ...]).  Note: the function
iterates over the raw rows directly, without popping the header row at
element zero; a row is kept iff its icons column contains the substring
ack. -/
def get_acknowledged_hosts (colour : Bool) (comments : List Comment) :
    List (List String) → Option (List (List String))
  | [] => some []
  | i :: rest =>
    match i with
    | host :: addr :: icons :: irest =>
      if pyIn "ack" icons then
        match irest with
        | st :: det :: _ =>
          match get_acknowledged_hosts colour comments rest with
          | some tail =>
            some (ack_host_row colour comments host addr st det :: tail)
          | none => none
        | _ => none
      else get_acknowledged_hosts colour comments rest
    | _ => none

/-- One output row of CheckMk.get_acknowledged_services:
[state, host, service, detail wrapped at 60, since, author, comment]. -/
def ack_service_row (colour : Bool) (comments : List Comment)
    (st host svc det since : String) : List String :=
  let ac := attach_comment comments host (some svc)
  [svc_state_colour colour st, host, svc, textwrap_fill det 60, since,
   ac.1, ac.2]

/-- Embedding of CheckMk.get_acknowledged_services on the raw service problem
rows (layout [state, host, service, icons, detail, state_age]).  Like the
host variant it iterates over the raw rows directly without popping the
header row at element zero. -/
def get_acknowledged_services (colour : Bool) (comments : List Comment) :
    List (List String) → Option (List (List String))
  | [] => some []
  | i :: rest =>
    match i with
    | st :: host :: svc :: icons :: irest =>
      if pyIn "ack" icons then
        match irest with
        | det :: since :: _ =>
          match get_acknowledged_services colour comments rest with
          | some tail =>
            some (ack_service_row colour comments st host svc det since :: tail)
          | none => none
        | _ => none
      else get_acknowledged_services colour comments rest
    | _ => none

/-! ## Interactive prompts -/

/-- One interactive input event: a line delivered by the builtin input, or a
KeyboardInterrupt; exhaustion of the event list models EOFError. -/
inductive LineInput : Type
  | line (s : String)
  | interrupt
deriving DecidableEq

/-- Embedding of CheckMk.get_problem_id: parse the line with int() and
re-prompt (recurse) on ValueError or an out-of-range value; return the value
once it lies in the range 1 to total; KeyboardInterrupt and EOFError abort
with no result. -/
def get_problem_id (total : Nat) : List LineInput → Option Int
  | [] => none
  | LineInput.interrupt :: _ => none
  | LineInput.line s :: rest =>
    match pyInt s with
    | none => get_problem_id total rest
    | some k =>
      if 1 ≤ k ∧ k ≤ (total : Int) then some k
      else get_problem_id total rest

/-- Embedding of the selection dereference in CheckMk.acknowledge (lines 653
to 656) and CheckMk.unacknowledge (lines 690 to 699): an id within the host
range indexes the host table at id minus one, otherwise the service table at
id minus the host count minus one.  Callers only pass ids returned by
get_problem_id, hence between 1 and the total row count. -/
def acknowledge_select {α : Type} (hostRows serviceRows : List α)
    (problem_id : Int) : Option α :=
  if problem_id ≤ (hostRows.length : Int) then
    hostRows.get? (problem_id - 1).toNat
  else
    serviceRows.get? (problem_id - hostRows.length - 1).toNat

/-- Replacement of semicolons by colons in an acknowledgement comment, the
re.sub call of CheckMk.get_acknowledge_comment (semicolons are not allowed
in comments). -/
def replace_semicolons (s : String) : String :=
  String.mk (s.data.map (fun ch => if ch = ';' then ':' else ch))

/-- Embedding of CheckMk.get_acknowledge_comment: strip the entered line; an
empty result re-prompts (recurses); a non-empty result is returned with
semicolons replaced; KeyboardInterrupt and EOFError return no comment. -/
def get_acknowledge_comment : List LineInput → Option String
  | [] => none
  | LineInput.interrupt :: _ => none
  | LineInput.line s :: rest =>
    let comment := pyStrip s
    if comment = "" then get_acknowledge_comment rest
    else some (replace_semicolons comment)

/-- Embedding of the yes_no helper: lower-case and strip the answer; a
leading y or an empty answer means yes, a leading n means no, anything else
re-prompts; KeyboardInterrupt and EOFError give no answer. -/
def yes_no : List LineInput → Option Bool
  | [] => none
  | LineInput.interrupt :: _ => none
  | LineInput.line s :: rest =>
    let a := pyStrip (pyLower s)
    if pyTake1 a = "y" ∨ a = "" then some true
    else if pyTake1 a = "n" then some false
    else yes_no rest

/-- Decision core of CheckMk.prompt_acknowledge_problem: ask for a comment
(aborting silently when none is obtained), confirm, and return the comment
of the acknowledgement that is sent, or none when nothing is sent.  The
service argument only selects the wording of the confirmation question in
the source. -/
def prompt_acknowledge_problem (service : Option String)
    (commentIn confirmIn : List LineInput) : Option String :=
  match service, get_acknowledge_comment commentIn with
  | _, none => none
  | _, some comment =>
    match yes_no confirmIn with
    | some true => some comment
    | _ => none

/-! ## Downtime request outcomes -/

/-- Messages printed by CheckMk.downtime_add_minutes as a function of the
response text of the view endpoint: a success message when the response
contains the success substring, and nothing at all otherwise (the function
has no failure branch). -/
def downtime_add_minutes_messages (colour : Bool) (hostname : String)
    (service : Option String) (minutes : Nat) (response : String) :
    List String :=
  if pyIn "MESSAGE: Successfully sent" response then
    match service with
    | some svc =>
      ["service " ++ str_green colour svc ++ " on host " ++
        str_green colour hostname ++
        " successfully placed in downtime for " ++ toString minutes ++
        " minutes"]
    | none =>
      ["host " ++ str_green colour hostname ++
        " successfully placed in downtime for " ++ toString minutes ++
        " minutes"]
  else []

/-- Messages printed by CheckMk.downtime_remove as a function of the response
text of the view endpoint: a success message when the response contains the
success substring, and an explanatory failure message otherwise. -/
def downtime_remove_messages (colour : Bool) (hostname : String)
    (service : Option String) (response : String) : List String :=
  if pyIn "MESSAGE: Successfully sent" response then
    match service with
    | some svc =>
      ["service " ++ str_green colour svc ++ " on host " ++
        str_green colour hostname ++ " successfully removed from downtime"]
    | none =>
      ["host " ++ str_green colour hostname ++
        " successfully removed from downtime "]
  else
    match service with
    | some svc =>
      ["could not remove downtime on service " ++ str_red colour svc ++
        " on host " ++ str_red colour hostname ++
        ". it probably was not in downtime to begin with."]
    | none =>
      ["could not remove downtime on host " ++ str_red colour hostname ++
        ". it probably was not in downtime to begin with."]

/-! ## Helper lemmas -/

theorem chPre_append (p t : List Char) : chPre p (p ++ t) = true := by
  induction p with
  | nil => rfl
  | cons a as ih => simp [chPre, ih]

theorem chPre_append_of_length_le (p q t : List Char)
    (h : p.length ≤ q.length) : chPre p (q ++ t) = chPre p q := by
  induction p generalizing q with
  | nil => simp [chPre]
  | cons a as ih =>
    cases q with
    | nil => simp at h
    | cons b bs =>
      simp only [List.cons_append, chPre, List.append_eq]
      rw [ih bs (by simpa using h)]

/-- Claim C6: stripping a known severity label removes exactly the single
leading label CRIT, WARN or UNKNOWN followed by space dash space, and a
detail string starting with none of the three labels is returned
unchanged. -/
theorem claim_C6_theorem :
    (∀ s : String, strip_severity ("CRIT - " ++ s) = s)
    ∧ (∀ s : String, strip_severity ("WARN - " ++ s) = s)
    ∧ (∀ s : String, strip_severity ("UNKNOWN - " ++ s) = s)
    ∧ (∀ d : String, hasSeverity d = false → strip_severity d = d) := by
  refine ⟨?_, ?_, ?_, ?_⟩
  · intro s
    have hd : ("CRIT - " ++ s).data = "CRIT - ".data ++ s.data :=
      String.data_append _ _
    simp only [strip_severity, hd, chPre_append, if_true]
    rw [List.drop_left' (by rfl)]
  · intro s
    have hd : ("WARN - " ++ s).data = "WARN - ".data ++ s.data :=
      String.data_append _ _
    have hc : chPre "CRIT - ".data ("WARN - ".data ++ s.data) = false := by
      rw [chPre_append_of_length_le _ _ _ (by decide)]; decide
    simp only [strip_severity, hd, hc, chPre_append, if_true,
      Bool.false_eq_true, if_false]
    rw [List.drop_left' (by rfl)]
  · intro s
    have hd : ("UNKNOWN - " ++ s).data = "UNKNOWN - ".data ++ s.data :=
      String.data_append _ _
    have hc : chPre "CRIT - ".data ("UNKNOWN - ".data ++ s.data) = false := by
      rw [chPre_append_of_length_le _ _ _ (by decide)]; decide
    have hw : chPre "WARN - ".data ("UNKNOWN - ".data ++ s.data) = false := by
      rw [chPre_append_of_length_le _ _ _ (by decide)]; decide
    simp only [strip_severity, hd, hc, hw, chPre_append, if_true,
      Bool.false_eq_true, if_false]
    rw [List.drop_left' (by rfl)]
  · intro d h
    simp only [hasSeverity, Bool.or_eq_false_iff] at h
    obtain ⟨⟨h1, h2⟩, h3⟩ := h
    simp [strip_severity, h1, h2, h3]

/-- Witness for claim C6 at concrete inputs. -/
theorem claim_C6_witness :
    strip_severity "CRIT - foo" = "foo" ∧ strip_severity "all fine" = "all fine" := by
  constructor
  · have h := claim_C6_theorem.1 "foo"
    simpa using h
  · exact claim_C6_theorem.2.2.2 "all fine" (by decide)

/-- Claim C8, counterexample: a downtime add request whose response lacks the
success substring produces no message at all — the failure passes silently,
while the claim požaduje that it be reported to the user as a message.  The
response text used here is a concrete failing response. -/
theorem claim_C8_counterexample :
    downtime_add_minutes_messages false "web01" none 30 "host not found" = [] := by
  rfl

/-- Claim C8 as amended: for a response text lacking the success substring,
downtime removal prints an explanatory failure message (a non-empty message
list), while downtime addition prints nothing — only successful additions
are reported. -/
theorem claim_C8_amended :
    ∀ (colour : Bool) (hostname : String) (service : Option String)
      (minutes : Nat) (response : String),
      pyIn "MESSAGE: Successfully sent" response = false →
      downtime_remove_messages colour hostname service response ≠ []
      ∧ downtime_add_minutes_messages colour hostname service minutes response
          = [] := by
  intro colour hostname service minutes response h
  constructor
  · cases service <;>
      simp [downtime_remove_messages, h]
  · cases service <;>
      simp [downtime_add_minutes_messages, h]

/-- Witness for claim C8 at concrete inputs. -/
theorem claim_C8_witness :
    downtime_remove_messages false "web01" none "nothing here" ≠ []
    ∧ downtime_add_minutes_messages false "web01" none 5 "nothing here" = [] :=
  claim_C8_amended false "web01" none 5 "nothing here" (by rfl)

/-- Helper for claim C9: the recursion of get_comments over data rows only
ever emits comments whose author differs from the Nagios process marker. -/
theorem get_comments_go_author :
    ∀ (rows : List (List String)) (out : List Comment),
      get_comments_go rows = some out →
      ∀ c ∈ out, c.author ≠ "(Nagios Process)" := by
  intro rows
  induction rows with
  | nil =>
    intro out h c hc
    simp only [get_comments_go, Option.some.injEq] at h
    subst h
    simp at hc
  | cons i rest ih =>
    intro out h c hc
    simp only [get_comments_go] at h
    cases i with
    | nil => simp at h
    | cons a irest =>
      by_cases ha : (a == "(Nagios Process)") = true
      · simp only [ha, if_true] at h
        exact ih out h c hc
      · simp only [ha, if_false, Bool.false_eq_true] at h
        split at h
        · split at h
          · rename_i tail htail
            simp only [Option.some.injEq] at h
            subst h
            rcases List.mem_cons.mp hc with hceq | hmem
            · subst hceq
              simpa using beq_eq_false_iff_ne.mp (by simpa using ha)
            · exact ih tail htail c hmem
          · simp at h
        · simp at h

/-- Claim C9: every comment returned by get_comments has an author different
from the Nagios process marker; rows authored by the Nagios process are
filtered out before the comment list is used anywhere. -/
theorem claim_C9_theorem :
    ∀ (raw : List (List String)) (out : List Comment),
      get_comments raw = some out →
      ∀ c ∈ out, c.author ≠ "(Nagios Process)" := by
  intro raw out h
  cases raw with
  | nil => simp [get_comments] at h
  | cons hd rows =>
    simp only [get_comments] at h
    exact get_comments_go_author rows out h

/-- Witness for claim C9 at a concrete input containing a Nagios-process row
(filtered out) and an ordinary comment row (kept). -/
theorem claim_C9_witness :
    (Comment.mk "alice" "t1" "h1" "s1" "hello").author ≠ "(Nagios Process)" := by
  have h := claim_C9_theorem
    [["author", "time", "x", "x", "comment", "host", "service"],
     ["(Nagios Process)", "t0", "x", "x", "auto", "h0", "s0"],
     ["alice", "t1", "x", "x", "hello", "h1", "s1"]]
    [Comment.mk "alice" "t1" "h1" "s1" "hello"] (by rfl)
  exact h _ (by simp)

/-- Claim C10: a comment returned by the acknowledgement-comment prompt is
never empty and never contains a semicolon (semicolons are rewritten to
colons); an input that is empty after stripping re-prompts; an interrupt
yields no comment, and then the prompt flow sends no acknowledgement. -/
theorem claim_C10_theorem :
    (∀ (inputs : List LineInput) (c : String),
        get_acknowledge_comment inputs = some c →
        c ≠ "" ∧ ';' ∉ c.data)
    ∧ (∀ rest : List LineInput,
        get_acknowledge_comment (LineInput.interrupt :: rest) = none)
    ∧ (∀ (s : String) (rest : List LineInput), pyStrip s = "" →
        get_acknowledge_comment (LineInput.line s :: rest)
          = get_acknowledge_comment rest)
    ∧ (∀ (service : Option String) (commentIn confirmIn : List LineInput),
        get_acknowledge_comment commentIn = none →
        prompt_acknowledge_problem service commentIn confirmIn = none) := by
  refine ⟨?_, ?_, ?_, ?_⟩
  · intro inputs
    induction inputs with
    | nil => intro c h; simp [get_acknowledge_comment] at h
    | cons e rest ih =>
      intro c h
      cases e with
      | interrupt => simp [get_acknowledge_comment] at h
      | line s =>
        simp only [get_acknowledge_comment] at h
        by_cases he : pyStrip s = ""
        · rw [if_pos he] at h
          exact ih c h
        · rw [if_neg he] at h
          simp only [Option.some.injEq] at h
          subst h
          constructor
          · intro hc
            apply he
            have hdata : ((pyStrip s).data.map
                (fun ch => if ch = ';' then ':' else ch)) = [] := by
              have := congrArg String.data hc
              simpa [replace_semicolons] using this
            have : (pyStrip s).data = [] := List.map_eq_nil_iff.mp hdata
            exact String.ext (by simpa using this)
          · intro hc
            simp only [replace_semicolons] at hc
            rcases List.mem_map.mp hc with ⟨x, _, hfx⟩
            by_cases hx : x = ';'
            · rw [if_pos hx] at hfx
              exact absurd hfx (by decide)
            · rw [if_neg hx] at hfx
              exact hx hfx
  · intro rest; rfl
  · intro s rest he
    simp [get_acknowledge_comment, he]
  · intro service commentIn confirmIn h
    cases service <;> simp [prompt_acknowledge_problem, h]

/-- Witness for claim C10 at concrete inputs: a padded line containing a
semicolon, and an interrupted comment prompt. -/
theorem claim_C10_witness :
    ("fix: applied" ≠ "" ∧ ';' ∉ "fix: applied".data)
    ∧ prompt_acknowledge_problem none [LineInput.interrupt] [] = none := by
  constructor
  · exact claim_C10_theorem.1 [LineInput.line "  fix; applied  "]
      "fix: applied" (by rfl)
  · exact claim_C10_theorem.2.2.2 none [LineInput.interrupt] [] (by rfl)

/-- Claim C3: the interactive selection accepts exactly the integers between
1 and the combined total (re-prompting on non-integer lines and on
out-of-range integers, aborting silently on an interrupt), and the accepted
id dereferences into the host table at id minus one when it lies in the host
range, otherwise into the service table at the offset beyond the host
count. -/
theorem claim_C3_theorem :
    (∀ (total : Nat) (s : String) (rest : List LineInput),
        pyInt s = none →
        get_problem_id total (LineInput.line s :: rest)
          = get_problem_id total rest)
    ∧ (∀ (total : Nat) (s : String) (k : Int) (rest : List LineInput),
        pyInt s = some k → ¬(1 ≤ k ∧ k ≤ (total : Int)) →
        get_problem_id total (LineInput.line s :: rest)
          = get_problem_id total rest)
    ∧ (∀ (total : Nat) (s : String) (k : Int) (rest : List LineInput),
        pyInt s = some k → 1 ≤ k → k ≤ (total : Int) →
        get_problem_id total (LineInput.line s :: rest) = some k)
    ∧ (∀ (total : Nat) (rest : List LineInput),
        get_problem_id total (LineInput.interrupt :: rest) = none)
    ∧ (∀ (hostRows serviceRows : List (List String)) (k : Int),
        1 ≤ k → k ≤ (hostRows.length : Int) →
        acknowledge_select hostRows serviceRows k
          = hostRows.get? (k.toNat - 1))
    ∧ (∀ (hostRows serviceRows : List (List String)) (k : Int),
        (hostRows.length : Int) < k →
        k ≤ (hostRows.length : Int) + (serviceRows.length : Int) →
        acknowledge_select hostRows serviceRows k
          = serviceRows.get? (k.toNat - hostRows.length - 1)) := by
  refine ⟨?_, ?_, ?_, ?_, ?_, ?_⟩
  · intro total s rest h
    simp [get_problem_id, h]
  · intro total s k rest h hk
    simp [get_problem_id, h, hk]
  · intro total s k rest h h1 h2
    simp [get_problem_id, h, h1, h2]
  · intro total rest; rfl
  · intro hostRows serviceRows k h1 h2
    rw [acknowledge_select, if_pos h2]
    congr 1
    omega
  · intro hostRows serviceRows k h1 h2
    rw [acknowledge_select, if_neg (by omega)]
    congr 1
    omega

/-- Witness for claim C3 at concrete inputs: the combined listing has two
host rows and one service row; the entered id 2 is accepted, and id 3
dereferences into the service table. -/
theorem claim_C3_witness :
    get_problem_id 3 [LineInput.line "2"] = some 2
    ∧ acknowledge_select [["a"], ["b"]] [["c"]] 3 = some ["c"] := by
  constructor
  · exact claim_C3_theorem.2.2.1 3 "2" 2 [] (by rfl) (by decide) (by decide)
  · have h := claim_C3_theorem.2.2.2.2.2 [["a"], ["b"]] [["c"]] 3
      (by decide) (by decide)
    simpa using h

/-- Claim C5, counterexample: with an empty host query, the single comment
entry has a host equal to the query, so the claim requires its author and
text to be returned; the code guards both branches with Python truthiness of
the host, so an empty host matches nothing and the lookup returns none. -/
theorem claim_C5_counterexample :
    get_comment [Comment.mk "alice" "t0" "" "" "note"] "" none = none := by
  rfl

/-- Claim C5 as amended: for a non-empty host (and, when a service is given,
a non-empty service), comment lookup returns the author and text of the
first entry whose host (and service) equals the query — earlier entries win;
when the lookup finds nothing, empty author and comment strings are
attached. -/
theorem claim_C5_amended :
    (∀ (comments : List Comment) (host : String), host ≠ "" →
        get_comment comments host none
          = (comments.find? (fun c => c.host == host)).map
              (fun c => (c.author, c.text)))
    ∧ (∀ (comments : List Comment) (host s : String), host ≠ "" → s ≠ "" →
        get_comment comments host (some s)
          = (comments.find? (fun c => c.host == host && c.service == s)).map
              (fun c => (c.author, c.text)))
    ∧ (∀ (comments : List Comment) (host : String) (service : Option String),
        get_comment comments host service = none →
        attach_comment comments host service = ("", "")) := by
  refine ⟨?_, ?_, ?_⟩
  · intro comments host hh
    have hb : (host == "") = false := beq_eq_false_iff_ne.mpr hh
    induction comments with
    | nil => simp [get_comment]
    | cons i rest ih =>
      by_cases hm : (i.host == host) = true
      · rw [List.find?_cons_of_pos _ (by simpa using hm)]
        simp [get_comment, pyTruthy, pyTruthyOpt, hb, hm]
      · rw [List.find?_cons_of_neg _ (by simpa using hm)]
        rw [← ih]
        simp [get_comment, pyTruthy, pyTruthyOpt, hb, hm]
  · intro comments host s hh hs
    have hb : (host == "") = false := beq_eq_false_iff_ne.mpr hh
    have hbs : (s == "") = false := beq_eq_false_iff_ne.mpr hs
    induction comments with
    | nil => simp [get_comment]
    | cons i rest ih =>
      by_cases hm1 : (i.host == host) = true
      · by_cases hm2 : (i.service == s) = true
        · rw [List.find?_cons_of_pos _ (by simp [hm1, hm2])]
          simp [get_comment, pyTruthy, pyTruthyOpt, hb, hbs, hm1, hm2]
        · rw [List.find?_cons_of_neg _ (by simp [hm1, hm2])]
          rw [← ih]
          simp [get_comment, pyTruthy, pyTruthyOpt, hb, hbs, hm1, hm2]
      · rw [List.find?_cons_of_neg _ (by simp [hm1])]
        rw [← ih]
        simp [get_comment, pyTruthy, pyTruthyOpt, hb, hbs, hm1]
  · intro comments host service h
    simp [attach_comment, h]

/-- Witness for claim C5 at concrete inputs: two comments for the same host,
the earlier one wins; an empty comment list attaches empty strings. -/
theorem claim_C5_witness :
    get_comment [Comment.mk "alice" "t1" "h1" "" "first",
                 Comment.mk "bob" "t2" "h1" "" "second"] "h1" none
      = some ("alice", "first")
    ∧ attach_comment [] "h1" none = ("", "") := by
  constructor
  · rw [claim_C5_amended.1
      [Comment.mk "alice" "t1" "h1" "" "first",
       Comment.mk "bob" "t2" "h1" "" "second"] "h1" (by decide)]
    rfl
  · exact claim_C5_amended.2.2 [] "h1" none (by rfl)

/-- Claim C7: the single service-problem data row with state CRIT, an ack
icon, and a prefix-free detail is formatted into one displayed row whose
severity cell is recoloured red, whose acknowledgement cell is the decoded
flag, and whose detail cell is unchanged; the leading header row of the raw
listing is discarded whatever it contains. -/
theorem claim_C7_theorem :
    ∀ header : List String,
      get_service_problems_table true
          (header :: [["CRIT", "host1", "svcA", "ack", "detail1", "5m"]])
        = some [[str_red true "CRIT", "host1", "svcA", "detail1", "5m",
                 str_blue true "(acknowledged) "]] := by
  intro header
  rfl

/-- Claim C4, counterexample: get_acknowledged_hosts run on a raw listing
consisting of its single element-zero row (the position the header row
always occupies) emits a display row built from that row, because the
function never pops the header before filtering on the icons column — the
claim asserts the header row is never treated as a data row. -/
theorem claim_C4_counterexample :
    get_acknowledged_hosts false [] [["h1", "a1", "ack", "UP", "d1"]]
      = some [["UP", "h1", "a1", "d1", "", ""]] := by
  rfl

/-- Claim C4 as amended: the table builders get_host_problems_table and
get_service_problems_table discard the row at element zero before
interpreting rows positionally (their result does not depend on it), but
get_acknowledged_hosts and get_acknowledged_services iterate over all raw
rows including element zero, keeping every row whose icons cell contains the
substring ack; the header row is excluded only when its icons-column text
lacks that substring. -/
theorem claim_C4_amended :
    (∀ (colour : Bool) (h1 h2 : List String) (data : List (List String)),
        get_host_problems_table colour (h1 :: data)
          = get_host_problems_table colour (h2 :: data))
    ∧ (∀ (colour : Bool) (h1 h2 : List String) (data : List (List String)),
        get_service_problems_table colour (h1 :: data)
          = get_service_problems_table colour (h2 :: data))
    ∧ (∀ (colour : Bool) (comments : List Comment)
        (host addr icons st det : String) (rest t : List (List String)),
        pyIn "ack" icons = true →
        get_acknowledged_hosts colour comments rest = some t →
        get_acknowledged_hosts colour comments
            ([host, addr, icons, st, det] :: rest)
          = some (ack_host_row colour comments host addr st det :: t))
    ∧ (∀ (colour : Bool) (comments : List Comment)
        (st host svc icons det since : String) (rest t : List (List String)),
        pyIn "ack" icons = true →
        get_acknowledged_services colour comments rest = some t →
        get_acknowledged_services colour comments
            ([st, host, svc, icons, det, since] :: rest)
          = some (ack_service_row colour comments st host svc det since :: t)) := by
  refine ⟨?_, ?_, ?_, ?_⟩
  · intro colour h1 h2 data; rfl
  · intro colour h1 h2 data; rfl
  · intro colour comments host addr icons st det rest t hack hrest
    simp [get_acknowledged_hosts, hack, hrest]
  · intro colour comments st host svc icons det since rest t hack hrest
    simp [get_acknowledged_services, hack, hrest]

/-- Witness for claim C4 at concrete inputs: a row carrying the ack icon is
kept and formatted, a row without it is skipped. -/
theorem claim_C4_witness :
    get_acknowledged_hosts false []
        [["h2", "a2", "ack", "DOWN", "d2"], ["h3", "a3", "", "UP", "d3"]]
      = some [ack_host_row false [] "h2" "a2" "DOWN" "d2"] := by
  have h := claim_C4_amended.2.2.1 false [] "h2" "a2" "ack" "DOWN" "d2"
      [["h3", "a3", "", "UP", "d3"]] [] (by rfl) (by rfl)
  simpa using h

theorem runEvents_append (evs1 evs2 : List Event) :
    ∀ st : WatoState,
      runEvents st (evs1 ++ evs2)
        = (runEvents st evs1).bind (fun s2 => runEvents s2 evs2) := by
  induction evs1 with
  | nil => intro st; rfl
  | cons e evs ih =>
    intro st
    simp only [List.cons_append, runEvents]
    cases watoStep st e with
    | none => rfl
    | some st2 => simpa using ih st2

theorem runEvents_no_table_close (evs : List Event) :
    ∀ st : WatoState, st.header_found = false → st.column_index = 0 →
      (∀ e ∈ evs, e ≠ Event.endTag "table") →
      runEvents st evs = some st := by
  induction evs with
  | nil => intro st h1 h2 h3; rfl
  | cons e rest ih =>
    intro st h1 h2 h3
    have he : e ≠ Event.endTag "table" := h3 e (by simp)
    have hrest : ∀ x ∈ rest, x ≠ Event.endTag "table" :=
      fun x hx => h3 x (by simp [hx])
    cases e with
    | startTag t =>
      have hs : watoStep st (Event.startTag t) = some st := by
        simp [watoStep, handle_starttag, h1]
      simp only [runEvents, hs, Option.some_bind]
      exact ih st h1 h2 hrest
    | endTag t =>
      have ht : t ≠ "table" := by
        intro hcontra
        exact he (by rw [hcontra])
      have hs : watoStep st (Event.endTag t) = some st := by
        simp [watoStep, handle_endtag, ht]
      simp only [runEvents, hs, Option.some_bind]
      exact ih st h1 h2 hrest
    | text s =>
      have hs : watoStep st (Event.text s) = some st := by
        simp [watoStep, handle_data, h2]
      simp only [runEvents, hs, Option.some_bind]
      exact ih st h1 h2 hrest

theorem runEvents_header_table (body : List Event)
    (hb : ∀ e ∈ body, e ≠ Event.endTag "table") :
    runEvents watoInit (headerTableEvents body)
      = some ⟨[], -1, 0, true⟩ := by
  have h1 : watoStep watoInit (Event.startTag "table") = some watoInit := by
    rfl
  simp only [headerTableEvents, runEvents, h1, Option.some_bind]
  rw [runEvents_append, runEvents_no_table_close body watoInit rfl rfl hb]
  rfl

theorem getD_append_len {α : Type} (o : List α) (r d : α) :
    (o ++ [r]).getD o.length d = r := by
  simp [List.getD_append_right]

theorem set_append_len {α : Type} (o : List α) (r v : α) :
    (o ++ [r]).set o.length v = o ++ [v] := by
  simp

theorem pyListAppendAt_last (o : List (List String)) (r : List String)
    (s : String) :
    pyListAppendAt (o ++ [r]) (o.length : Int) s = some (o ++ [r ++ [s]]) := by
  have h0 : ¬((o.length : Int) < 0) := by omega
  have h1 : (0 : Int) ≤ (o.length : Int)
      ∧ (o.length : Int) < ((o ++ [r]).length : Int) := by
    constructor
    · omega
    · simp
  simp only [pyListAppendAt, h0, if_false, h1, if_true, Int.toNat_natCast]
  rw [getD_append_len, set_append_len]
  simp

theorem runEvents_cells (cells : List String) :
    ∀ (o : List (List String)) (r : List String) (c : Nat),
      runEvents ⟨o ++ [r], (o.length : Int), c, true⟩
          ((cells.map cellEvents).flatten)
        = some ⟨o ++ [r ++ projFrom c cells], (o.length : Int),
                c + cells.length, true⟩ := by
  induction cells with
  | nil =>
    intro o r c
    simp [projFrom, runEvents]
  | cons s cs ih =>
    intro o r c
    simp only [List.map_cons, List.flatten_cons, cellEvents, List.cons_append,
      List.nil_append]
    have h1 : watoStep ⟨o ++ [r], (o.length : Int), c, true⟩
        (Event.startTag "td")
        = some ⟨o ++ [r], (o.length : Int), c + 1, true⟩ := by
      simp [watoStep, handle_starttag]
    have h3 : ∀ st : WatoState, watoStep st (Event.endTag "td") = some st := by
      intro st
      simp [watoStep, handle_endtag]
    by_cases hc : (c + 1 = 2 ∨ c + 1 = 3 ∨ c + 1 = 4)
    · have h2 : watoStep ⟨o ++ [r], (o.length : Int), c + 1, true⟩
          (Event.text s)
          = some ⟨o ++ [r ++ [s]], (o.length : Int), c + 1, true⟩ := by
        simp only [watoStep, handle_data]
        rw [if_pos hc, pyListAppendAt_last]
        rfl
      have hstep : runEvents ⟨o ++ [r], (o.length : Int), c, true⟩
          (Event.startTag "td" :: Event.text s :: Event.endTag "td"
            :: (cs.map cellEvents).flatten)
          = runEvents ⟨o ++ [r ++ [s]], (o.length : Int), c + 1, true⟩
              ((cs.map cellEvents).flatten) := by
        simp only [runEvents, h1, h2, h3, Option.some_bind]
      rw [hstep, ih]
      have hp : projFrom c (s :: cs) = s :: projFrom (c + 1) cs := by
        rw [projFrom, if_pos hc]
      rw [hp,
        show (r ++ [s]) ++ projFrom (c + 1) cs
            = r ++ (s :: projFrom (c + 1) cs) by simp,
        show c + (s :: cs).length = (c + 1) + cs.length by
          simp only [List.length_cons]; omega]
    · have h2 : watoStep ⟨o ++ [r], (o.length : Int), c + 1, true⟩
          (Event.text s)
          = some ⟨o ++ [r], (o.length : Int), c + 1, true⟩ := by
        simp only [watoStep, handle_data]
        rw [if_neg hc]
      have hstep : runEvents ⟨o ++ [r], (o.length : Int), c, true⟩
          (Event.startTag "td" :: Event.text s :: Event.endTag "td"
            :: (cs.map cellEvents).flatten)
          = runEvents ⟨o ++ [r], (o.length : Int), c + 1, true⟩
              ((cs.map cellEvents).flatten) := by
        simp only [runEvents, h1, h2, h3, Option.some_bind]
      rw [hstep, ih]
      have hp : projFrom c (s :: cs) = projFrom (c + 1) cs := by
        rw [projFrom, if_neg hc]
      rw [hp,
        show c + (s :: cs).length = (c + 1) + cs.length by
          simp only [List.length_cons]; omega]

theorem runEvents_rows (rows : List (List String)) :
    ∀ (o : List (List String)) (c : Nat),
      ∃ c2, runEvents ⟨o, (o.length : Int) - 1, c, true⟩
          ((rows.map rowEvents).flatten)
        = some ⟨o ++ rows.map (fun cs => projFrom 0 cs),
                (o.length : Int) + rows.length - 1, c2, true⟩ := by
  induction rows with
  | nil =>
    intro o c
    refine ⟨c, ?_⟩
    simp [runEvents]
  | cons cells rs ih =>
    intro o c
    simp only [List.map_cons, List.flatten_cons, rowEvents, List.cons_append,
      List.append_assoc]
    have htr : watoStep ⟨o, (o.length : Int) - 1, c, true⟩
        (Event.startTag "tr")
        = some ⟨o ++ [[]], (o.length : Int), 0, true⟩ := by
      simp only [watoStep, handle_starttag]
      norm_num
    have htr2 : ∀ st : WatoState, watoStep st (Event.endTag "tr") = some st := by
      intro st
      simp [watoStep, handle_endtag]
    have hcells := runEvents_cells cells o [] 0
    obtain ⟨c2, hrest⟩ := ih (o ++ [projFrom 0 cells]) cells.length
    refine ⟨c2, ?_⟩
    simp only [runEvents, htr, Option.some_bind]
    rw [runEvents_append]
    rw [hcells]
    simp only [List.nil_append, Option.some_bind]
    simp only [runEvents, htr2, Option.some_bind, Nat.zero_add]
    have hlen : ((o ++ [projFrom 0 cells]).length : Int) - 1
        = (o.length : Int) := by
      simp
    rw [← hlen]
    rw [hrest]
    simp only [Option.some.injEq, WatoState.mk.injEq]
    refine ⟨by simp, ?_, trivial, trivial⟩
    simp only [List.length_append, List.length_cons, List.length_nil]
    push_cast
    omega

/-- Claim C2, counterexample: feeding a page fragment with no closing table
tag and then calling get_sites does not return an empty row list — the pop
call on the empty output raises IndexError, modelled by none. -/
theorem claim_C2_counterexample :
    scrapeSites [Event.startTag "table", Event.startTag "tr", Event.text "x"]
      = none := by
  rfl

/-- Claim C2 as amended: on any event sequence containing no closing table
tag, the scraper state is left in its initial form (in particular the
scraped output list is empty), and get_sites then fails with an IndexError
(the pop call on the empty output), modelled by none — rather than
returning an empty list. -/
theorem claim_C2_amended :
    ∀ events : List Event,
      (∀ e ∈ events, e ≠ Event.endTag "table") →
      runEvents watoInit events = some watoInit
      ∧ scrapeSites events = none := by
  intro events h
  have hrun := runEvents_no_table_close events watoInit rfl rfl h
  refine ⟨hrun, ?_⟩
  have hsc : scrapeSites events = (runEvents watoInit events).bind wato_get_sites :=
    rfl
  rw [hsc, hrun]
  rfl

/-- Witness for claim C2 at a concrete un-closed page fragment. -/
theorem claim_C2_witness :
    runEvents watoInit
        [Event.startTag "html", Event.startTag "table", Event.text "body"]
      = some watoInit
    ∧ scrapeSites
        [Event.startTag "html", Event.startTag "table", Event.text "body"]
      = none :=
  claim_C2_amended
    [Event.startTag "html", Event.startTag "table", Event.text "body"]
    (by decide)

theorem projFrom_big (cs : List String) :
    ∀ c : Nat, 4 ≤ c → projFrom c cs = [] := by
  induction cs with
  | nil => intro c h; rfl
  | cons s rest ih =>
    intro c h
    have hno : ¬(c + 1 = 2 ∨ c + 1 = 3 ∨ c + 1 = 4) := by omega
    rw [projFrom, if_neg hno]
    exact ih (c + 1) (by omega)

theorem projFrom_zero (cs : List String) :
    projFrom 0 cs = (cs.drop 1).take 3 := by
  match cs with
  | [] => rfl
  | [a] => rfl
  | [a, b] => rfl
  | [a, b, c] => rfl
  | [a, b, c, d] => rfl
  | a :: b :: c :: d :: e :: rest =>
    show projFrom 0 (a :: b :: c :: d :: e :: rest) = [b, c, d]
    rw [projFrom, if_neg (by omega), projFrom, if_pos (by omega),
      projFrom, if_pos (by omega), projFrom, if_pos (by omega),
      projFrom, if_neg (by omega), projFrom_big rest 5 (by omega)]

theorem tail_dropLast_comm {α : Type} (l : List α) :
    l.dropLast.tail = l.tail.dropLast := by
  cases l with
  | nil => rfl
  | cons a t =>
    cases t with
    | nil => rfl
    | cons b t2 => rfl

theorem isEmpty_false_of_len {α : Type} (l : List α) (h : 1 ≤ l.length) :
    l.isEmpty = false := by
  cases l with
  | nil => simp at h
  | cons a t => rfl

/-- Claim C1, counterexample: a complete header table followed by a data
table with exactly one row; the claim requires the scraper to return the
(empty) interior of the data table, but the second pop in get_sites raises
IndexError (modelled by none) instead. -/
theorem claim_C1_counterexample :
    scrapeSites (headerTableEvents []
        ++ tableEvents [["site1", "id", "name", "sock"]]) = none := by
  rfl

/-- Claim C1 as amended: for one complete header table followed by one data
table with at least two rows, the scraper returns exactly the interior rows
of the data table (all rows except the first and the last), each projected
to the text of its columns 2, 3 and 4 (1-indexed), in document order; with
fewer than two rows get_sites raises instead (see the counterexample). -/
theorem claim_C1_amended :
    ∀ (body : List Event) (rows : List (List String)),
      (∀ e ∈ body, e ≠ Event.endTag "table") →
      2 ≤ rows.length →
      scrapeSites (headerTableEvents body ++ tableEvents rows)
        = some (((rows.drop 1).dropLast).map
            (fun cs => (cs.drop 1).take 3)) := by
  intro body rows hb hn
  have hsc : scrapeSites (headerTableEvents body ++ tableEvents rows)
      = (runEvents watoInit (headerTableEvents body ++ tableEvents rows)).bind
          wato_get_sites := rfl
  rw [hsc, runEvents_append, runEvents_header_table body hb, Option.some_bind]
  have hopen : watoStep ⟨[], -1, 0, true⟩ (Event.startTag "table")
      = some ⟨[], -1, 0, true⟩ := by rfl
  obtain ⟨c2, hrows⟩ := runEvents_rows rows [] 0
  have hstate :
      (⟨[], (([] : List (List String)).length : Int) - 1, 0, true⟩ : WatoState)
        = ⟨[], -1, 0, true⟩ := by
    norm_num
  rw [hstate] at hrows
  simp only [tableEvents, runEvents, hopen, Option.some_bind]
  rw [runEvents_append, hrows, Option.some_bind]
  have hct : ∀ (o2 : List (List String)) (ri : Int) (ci : Nat),
      watoStep ⟨o2, ri, ci, true⟩ (Event.endTag "table")
        = some ⟨o2, ri, ci, true⟩ := by
    intro o2 ri ci
    simp [watoStep, handle_endtag]
  simp only [runEvents, List.nil_append, hct, Option.some_bind]
  have e1 : (rows.map (fun cs => projFrom 0 cs)).isEmpty = false :=
    isEmpty_false_of_len _ (by simp only [List.length_map]; omega)
  have e2 : ((rows.map (fun cs => projFrom 0 cs)).dropLast).isEmpty = false :=
    isEmpty_false_of_len _
      (by simp only [List.length_dropLast, List.length_map]; omega)
  simp only [wato_get_sites, pyPopLast, pyPopFront, e1, e2, Bool.false_eq_true,
    if_false, Option.some_bind]
  rw [tail_dropLast_comm]
  simp only [projFrom_zero, List.map_tail, List.map_dropLast, List.drop_one]

/-- Witness for claim C1 at a concrete page: a header table with chrome
content, then a data table with a repeated-header row, one site row, and a
footer row; the scraper returns the interior row projected to columns 2 to
4. -/
theorem claim_C1_witness :
    scrapeSites (headerTableEvents [Event.startTag "div", Event.text "menu"]
        ++ tableEvents
            [["", "site_id", "site_name", "socket"],
             ["x", "mon1", "monitor one", "tcp:1"],
             ["", "", "", ""]])
      = some [["mon1", "monitor one", "tcp:1"]] := by
  have h := claim_C1_amended [Event.startTag "div", Event.text "menu"]
      [["", "site_id", "site_name", "socket"],
       ["x", "mon1", "monitor one", "tcp:1"],
       ["", "", "", ""]] (by decide) (by decide)
  simpa using h

/-- Witness for claim C7 with a concrete header row. -/
theorem claim_C7_witness :
    get_service_problems_table true
        [["service_state", "host", "service_description", "service_icons",
          "svc_plugin_output", "svc_state_age"],
         ["CRIT", "host1", "svcA", "ack", "detail1", "5m"]]
      = some [[str_red true "CRIT", "host1", "svcA", "detail1", "5m",
               str_blue true "(acknowledged) "]] :=
  claim_C7_theorem ["service_state", "host", "service_description",
    "service_icons", "svc_plugin_output", "svc_state_age"]
